import Mathlib

/-!
Verification of the LLM-backed sentiment client of the `kiro` repository
(`sentiment_analysis.py`, `chainlit_app.py`).

Strings are modelled as `List Char`; Python string literals are written
`"...".data`.  Floats (`temperature`, `rate_limit_delay`, prices) are
modelled exactly as rationals `ℚ`; every value appearing in this
development (0.5, 2.0, 0.03, …) is exactly representable in both binary
floating point and `ℚ`.  The remote completion call is modelled as an
oracle `Nat → Except ApiErr Response` giving the outcome of the n-th
call attempt of one `predict_sentiment` invocation.
-/

namespace Kiro

/-- Python whitespace predicate used by `str.strip()`. -/
def isWS (c : Char) : Bool := c.isWhitespace

/-- Model of Python `str.strip()`: drop whitespace from both ends. -/
def pyStrip (l : List Char) : List Char :=
  ((l.dropWhile isWS).reverse.dropWhile isWS).reverse

/-- Accumulate the value of a digit string in which `_` may appear only
between two digits (Python `int()` literal syntax, base 10). -/
def pyDigitsAux : Nat → List Char → Option Nat
  | acc, [] => some acc
  | acc, c :: cs =>
    if c.isDigit then pyDigitsAux (10 * acc + (c.toNat - 48)) cs
    else if c = '_' then
      match cs with
      | [] => none
      | d :: _ => if d.isDigit then pyDigitsAux acc cs else none
    else none

/-- A digit run must start with a digit. -/
def pyDigits : List Char → Option Nat
  | [] => none
  | c :: cs => if c.isDigit then pyDigitsAux 0 (c :: cs) else none

/-- Model of Python `int(s)`: optional surrounding whitespace, optional
sign, then a base-10 digit run; `none` models `ValueError`. -/
def pyParseInt (l : List Char) : Option Int :=
  match pyStrip l with
  | '+' :: rest => (pyDigits rest).map Int.ofNat
  | '-' :: rest => (pyDigits rest).map (fun n => -(n : Int))
  | t => (pyDigits t).map Int.ofNat

/-- The final guard of `_parse_response`:
`if sentiment not in [-1, 0, 1]: sentiment = 0`. -/
def intGuard (v : Int) : Int :=
  if v = -1 ∨ v = 0 ∨ v = 1 then v else 0

/-- The ordered substring tests of `_parse_response` on the stripped
response text (Python `'1' in response_text` is substring containment),
then `int()` with fallback 0. -/
def rawLabel (t : List Char) : Int :=
  if "1".data <:+: t ∧ ¬ ("-1".data <:+: t) then 1
  else if "-1".data <:+: t then -1
  else if "0".data <:+: t then 0
  else (pyParseInt t).getD 0

/-- The label-extraction heuristic of `OpenAIClient._parse_response`,
applied to the raw completion text (which the source first `strip()`s):
ordered substring tests for `"1"`, `"-1"`, `"0"`, then `int()` with
fallback 0, then the range guard. -/
def parseLabel (raw : List Char) : Int :=
  intGuard (rawLabel (pyStrip raw))

example : parseLabel "1".data = 1 := by decide
example : parseLabel "-1".data = -1 := by decide
example : parseLabel "0".data = 0 := by decide
example : parseLabel "-1 is the answer".data = -1 := by decide
example : parseLabel "garbage".data = 0 := by decide
example : parseLabel "1 and -1".data = -1 := by decide
example : parseLabel "  7  ".data = 0 := by decide
example : pyParseInt "23".data = some 23 := by decide
example : pyParseInt "-2_3".data = some (-23) := by decide
example : pyParseInt "2_".data = none := by decide

/-! ### Configuration (`Config` dataclass) -/

/-- The `Config` dataclass of `sentiment_analysis.py`.  `max_retries` and
`max_tokens`/`batch_size` are Python `int`s; `max_retries` is kept as `Int`
because `_validate` does not constrain it. -/
structure Config where
  api_key : List Char
  model_name : List Char
  temperature : ℚ
  max_tokens : Nat
  batch_size : Nat
  rate_limit_delay : ℚ
  max_retries : Int
  backoff_factor : ℚ
  deriving DecidableEq, Repr

/-- Model of `Config.__post_init__` / `Config._validate`: construction raises
(`Except.error`) for an empty-or-blank api key or a temperature outside
[0.0, 2.0]; otherwise returns the configuration with the given values
unchanged.  Python `not api_key or not api_key.strip()` is equivalent to
`strip(api_key) = []`. -/
def mkConfig (api_key model_name : List Char) (temperature : ℚ)
    (max_tokens batch_size : Nat) (rate_limit_delay : ℚ)
    (max_retries : Int) (backoff_factor : ℚ) : Except (List Char) Config :=
  if pyStrip api_key = [] then
    .error "API key must be a non-empty string".data
  else if ¬ (0 ≤ temperature ∧ temperature ≤ 2) then
    .error "Temperature must be between 0.0 and 2.0".data
  else
    .ok ⟨api_key, model_name, temperature, max_tokens, batch_size,
         rate_limit_delay, max_retries, backoff_factor⟩

/-- The dataclass defaults: `model_name="gpt-3.5-turbo"`, `temperature=0.0`,
`max_tokens=10`, `batch_size=100`, `rate_limit_delay=0.5`, `max_retries=3`,
`backoff_factor=2.0`. -/
def mkConfigDefault (api_key : List Char) : Except (List Char) Config :=
  mkConfig api_key "gpt-3.5-turbo".data 0 10 100 (1/2) 3 2

/-! ### Remote call model and `_parse_response` -/

/-- Classification of the exceptions caught by `predict_sentiment`:
`RateLimitError`, then `(APIError, APIConnectionError, Timeout)`, then
bare `Exception`. -/
inductive ErrKind where
  | rateLimit
  | apiError
  | apiConnectionError
  | timeout
  | other
  deriving DecidableEq, Repr

/-- Classes `RateLimitError` and `(APIError, APIConnectionError, Timeout)` are
handled by the two retrying `except` arms; any other exception falls to
the terminal `except Exception` arm. -/
def ErrKind.retryable : ErrKind → Bool
  | .other => false
  | _ => true

/-- An exception raised by the remote call: its class and its `str(e)`. -/
structure ApiErr where
  kind : ErrKind
  msg : List Char
  deriving DecidableEq, Repr

/-- The fields of a chat-completion response that `_parse_response`
reads.  `content = none` models a response where
`response.choices[0].message.content.strip()` raises (missing choices or
null content); `none` token fields model missing `response.usage`
metadata. -/
structure Response where
  content : Option (List Char)
  promptTokens : Option Nat
  completionTokens : Option Nat
  deriving DecidableEq, Repr

/-- Model of `OpenAIClient._parse_response`: extract text, run the label
heuristic, read the usage counts; any exception along the way is caught
and yields `(0, 0, 0)`. -/
def parse_response (r : Response) : Int × Nat × Nat :=
  match r.content with
  | none => (0, 0, 0)
  | some text =>
    match r.promptTokens, r.completionTokens with
    | some p, some c => (parseLabel text, p, c)
    | _, _ => (0, 0, 0)

/-- Model of `OpenAIClient._sentiment_label`. -/
def sentiment_label (s : Int) : List Char :=
  if s = 1 then "Positive".data
  else if s = -1 then "Negative".data
  else "Neutral".data

/-- Model of `OpenAIClient._calculate_backoff`:
`rate_limit_delay * backoff_factor ** (retry_count - 1)`. -/
def calculate_backoff (cfg : Config) (retry_count : Nat) : ℚ :=
  cfg.rate_limit_delay * cfg.backoff_factor ^ (retry_count - 1)

/-! ### `predict_sentiment` -/

/-- The result dict built by `predict_sentiment` (the `SentimentResult`
shape of the spec).  `error = none` models `"error": None`. -/
structure SentimentResult where
  comment : List Char
  sentiment : Int
  score : Int
  explanation : List Char
  input_tokens : Nat
  output_tokens : Nat
  error : Option (List Char)
  deriving DecidableEq, Repr

/-- Python `str(last_error)` where `last_error` is `None` or an
exception message. -/
def strOfErr : Option (List Char) → List Char
  | none => "None".data
  | some m => m

/-- The success dict returned inside the `try` block. -/
def successResult (comment : List Char) (s : Int) (it ot : Nat) :
    SentimentResult :=
  { comment := comment, sentiment := s, score := s,
    explanation := "Classified as ".data ++ sentiment_label s,
    input_tokens := it, output_tokens := ot, error := none }

/-- The failure dict returned after the `while` loop. -/
def errorResult (comment : List Char) (lastErr : Option (List Char)) :
    SentimentResult :=
  { comment := comment, sentiment := 0, score := 0,
    explanation := "Error: ".data ++ strOfErr lastErr,
    input_tokens := 0, output_tokens := 0, error := some (strOfErr lastErr) }

/-- The `while retry_count <= max_retries` loop of
`OpenAIClient.predict_sentiment`.  `oracle n` is the outcome of the
(n+1)-th remote call of this invocation; `rc` is `retry_count`, `calls`
counts calls already made, `lastErr` is `last_error`.  Returns the
result dict and the total number of call attempts.  The blocking
`time.sleep(_calculate_backoff ...)` between retries has no effect on
the returned value and is not modelled here (see `calculate_backoff`
for the delay values). -/
def predictAux (cfg : Config) (comment : List Char)
    (oracle : Nat → Except ApiErr Response)
    (lastErr : Option (List Char)) (rc calls : Nat) :
    SentimentResult × Nat :=
  if _h : (rc : Int) ≤ cfg.max_retries then
    match oracle calls with
    | .ok resp =>
      (successResult comment (parse_response resp).1
        (parse_response resp).2.1 (parse_response resp).2.2, calls + 1)
    | .error e =>
      if e.kind.retryable then
        predictAux cfg comment oracle (some e.msg) (rc + 1) (calls + 1)
      else
        (errorResult comment (some e.msg), calls + 1)
  else
    (errorResult comment lastErr, calls)
termination_by (cfg.max_retries + 1 - rc).toNat
decreasing_by omega

/-- Model of `OpenAIClient.predict_sentiment(comment, messages)`: the loop starts
with `retry_count = 0`, `last_error = None`, no calls made yet. -/
def predict_sentiment (cfg : Config) (comment : List Char)
    (oracle : Nat → Except ApiErr Response) : SentimentResult × Nat :=
  predictAux cfg comment oracle none 0 0

/-! ### `PromptEngine` -/

/-- One element of the `messages` list: a `{"role": ..., "content": ...}`
dict. -/
structure Msg where
  role : List Char
  content : List Char
  deriving DecidableEq, Repr

/-- Model of `PromptEngine.get_system_message()`. -/
def get_system_message : List Char :=
  ("You are a sentiment analysis expert. Your task is to analyze Airbnb review comments "
   ++ "and classify them into one of three sentiment categories:\n\n"
   ++ "- Positive (1): The review expresses satisfaction, praise, or positive experiences\n"
   ++ "- Neutral (0): The review is balanced, factual, or neither clearly positive nor negative\n"
   ++ "- Negative (-1): The review expresses dissatisfaction, complaints, or negative experiences\n\n"
   ++ "Respond with ONLY the sentiment label: 1, 0, or -1. Do not include any explanation or additional text.").data

/-- The three `_get_default_examples()` of `PromptEngine`, as
(comment, sentiment) pairs. -/
def defaultExamples : List (List Char × Int) :=
  [("The apartment was amazing! Great location and very clean. The host was super responsive and helpful. Would definitely stay here again!".data, 1),
   ("The place was okay, nothing special. It served its purpose for a short stay.".data, 0),
   ("Terrible experience. The apartment was dirty and the host was unresponsive. The photos were misleading. Would not recommend.".data, -1)]

/-- The loop body of `get_few_shot_examples`, with the 1-based
`enumerate` index. -/
def fewShotAux : Nat → List (List Char × Int) → List Char
  | _, [] => []
  | i, (c, s) :: rest =>
    "Example ".data ++ (toString i).data ++ ":\n".data
      ++ "Comment: ".data ++ c ++ "\n".data
      ++ "Sentiment: ".data ++ (toString s).data ++ "\n\n".data
      ++ fewShotAux (i + 1) rest

/-- Model of `PromptEngine.get_few_shot_examples()` over the engine's example
set. -/
def get_few_shot_examples (examples : List (List Char × Int)) : List Char :=
  "Here are some examples:\n\n".data ++ fewShotAux 1 examples

/-- Model of `PromptEngine.build_prompt(comment)`: a fixed system turn followed
by a user turn holding the serialized few-shot set and the target
comment. -/
def build_prompt (examples : List (List Char × Int)) (comment : List Char) :
    List Msg :=
  [⟨"system".data, get_system_message⟩,
   ⟨"user".data,
    get_few_shot_examples examples
      ++ "Now analyze this comment:\n\nComment: ".data
      ++ comment
      ++ "\n\nSentiment:".data⟩]

/-! ### `chainlit_app.update_cost_tracking` (UsageAccumulator) -/

/-- The running session totals: `total_cost`, and the
`total_tokens = {"input": ..., "output": ...}` dict. -/
structure UsageTotals where
  cost : ℚ
  input : Nat
  output : Nat
  deriving DecidableEq, Repr

/-- Python truthiness of the `error` field: `None` and `""` are falsy,
any non-empty string is truthy (`if result.get("error"): return`). -/
def pyTruthy : Option (List Char) → Bool
  | none => false
  | some [] => false
  | some (_ :: _) => true

/-- The `pricing` table of `update_cost_tracking` (dollars per 1000
tokens, as exact rationals: 0.03, 0.06, 0.0015, 0.002), with
`pricing.get(model_name, pricing["gpt-3.5-turbo"])` fallback. -/
def pricingFor (model_name : List Char) : ℚ × ℚ :=
  if model_name = "gpt-4".data then (3/100, 6/100)
  else if model_name = "gpt-3.5-turbo".data then (15/10000, 2/1000)
  else (15/10000, 2/1000)

/-- Model of `chainlit_app.update_cost_tracking(result)`: early-return when the
result's `error` value is truthy; otherwise add
`input_tokens/1000 * input_price + output_tokens/1000 * output_price`
to the cost and the token counts to the totals.  The session state is
passed explicitly. -/
def update_cost_tracking (model_name : List Char) (totals : UsageTotals)
    (result : SentimentResult) : UsageTotals :=
  if pyTruthy result.error then totals
  else
    { cost := totals.cost
        + (result.input_tokens : ℚ) / 1000 * (pricingFor model_name).1
        + (result.output_tokens : ℚ) / 1000 * (pricingFor model_name).2,
      input := totals.input + result.input_tokens,
      output := totals.output + result.output_tokens }

/-! ### Batch processing (`chainlit_app.handle_csv_upload` loop) -/

/-- The per-comment loop of `handle_csv_upload`: build the prompt, call
`predict_sentiment`, append the result.  `predict` stands for the
composition `client.predict_sentiment(comment, build_prompt comment)`;
`update_cost_tracking` is folded over the same results separately. -/
def batchLoop (predict : List Char → SentimentResult) :
    List (List Char) → List SentimentResult
  | [] => []
  | c :: cs => predict c :: batchLoop predict cs

/-- The demo cap of `handle_csv_upload` / `app.py`:
`if len(comments) > 20: comments = comments[:20]`. -/
def batchCap : Nat := 20

/-- The truncation step (`comments = comments[:20]` under
`len(comments) > 20`). -/
def cappedComments (comments : List (List Char)) : List (List Char) :=
  if comments.length > batchCap then comments.take batchCap else comments

/-- Model of the `handle_csv_upload` batch stage: truncate to the cap, then run the
loop.  Returns the results and the number of dropped comments (the
surfaced message reports `len(comments)` found and 20 processed, i.e.
`len - 20` dropped). -/
def handle_csv_batch (predict : List Char → SentimentResult)
    (comments : List (List Char)) : List SentimentResult × Nat :=
  (batchLoop predict (cappedComments comments),
   comments.length - (cappedComments comments).length)

/-! ### Concrete sample values -/

/-- A configuration with the dataclass defaults
(`rate_limit_delay = 0.5`, `max_retries = 3`, `backoff_factor = 2.0`). -/
def cfgDemo : Config :=
  ⟨"sk-demo-key".data, "gpt-3.5-turbo".data, 0, 10, 100, 1/2, 3, 2⟩

/-- A remote call that raises `RateLimitError` on every attempt. -/
def oracleRL : Nat → Except ApiErr Response :=
  fun _ => .error ⟨.rateLimit, "Rate limit exceeded".data⟩

/-- A remote call that raises an unclassified exception on every
attempt. -/
def oracleFatal : Nat → Except ApiErr Response :=
  fun _ => .error ⟨.other, "boom".data⟩

/-- A remote call that succeeds but returns a response without usage
metadata. -/
def oracleNoUsage : Nat → Except ApiErr Response :=
  fun _ => .ok ⟨some "1".data, none, none⟩

/-- A fixed result used to drive the batch loop in concrete
instantiations. -/
def constNeutral : List Char → SentimentResult :=
  fun c => successResult c 0 3 1

/-! ### Helper lemmas -/

/-- A needle whose first character fails `p` occurs in `l.dropWhile p`
iff it occurs in `l`. -/
lemma infix_dropWhile_iff (p : Char → Bool) (c : Char) (rest l : List Char)
    (hc : p c = false) :
    (c :: rest) <:+: l.dropWhile p ↔ (c :: rest) <:+: l := by
  constructor
  · intro h
    exact h.trans (List.dropWhile_suffix p).isInfix
  · intro h
    induction l with
    | nil => simp at h
    | cons a t ih =>
      by_cases pa : p a = true
      · rw [List.dropWhile_cons, if_pos pa]
        rcases List.infix_cons_iff.mp h with hpre | hinf
        · rcases List.cons_prefix_cons.mp hpre with ⟨hac, _⟩
          rw [← hac] at pa
          simp [hc] at pa
        · exact ih hinf
      · rw [List.dropWhile_cons, if_neg pa]
        exact h

/-- A needle whose first and last characters are not whitespace occurs
in `pyStrip l` iff it occurs in `l`. -/
lemma infix_pyStrip_iff (c₁ : Char) (r₁ : List Char) (c₂ : Char)
    (r₂ l : List Char) (hrev : (c₁ :: r₁).reverse = c₂ :: r₂)
    (hc₁ : isWS c₁ = false) (hc₂ : isWS c₂ = false) :
    (c₁ :: r₁) <:+: pyStrip l ↔ (c₁ :: r₁) <:+: l := by
  unfold pyStrip
  have h1 : (c₁ :: r₁) <:+: ((l.dropWhile isWS).reverse.dropWhile isWS).reverse
      ↔ (c₁ :: r₁).reverse <:+: (l.dropWhile isWS).reverse.dropWhile isWS := by
    constructor
    · intro h
      have := List.reverse_infix.mpr h
      simpa using this
    · intro h
      have := List.reverse_infix.mpr h
      simpa using this
  rw [h1, hrev, infix_dropWhile_iff isWS c₂ r₂ _ hc₂, ← hrev,
    List.reverse_infix, infix_dropWhile_iff isWS c₁ r₁ l hc₁]

/-- Containment of `"1"` is preserved by stripping. -/
lemma one_infix_strip (s : List Char) :
    "1".data <:+: pyStrip s ↔ "1".data <:+: s :=
  infix_pyStrip_iff '1' [] '1' [] s (by decide) (by decide) (by decide)

/-- Containment of `"-1"` is preserved by stripping. -/
lemma negone_infix_strip (s : List Char) :
    "-1".data <:+: pyStrip s ↔ "-1".data <:+: s :=
  infix_pyStrip_iff '-' ['1'] '1' ['-'] s (by decide) (by decide) (by decide)

/-- Containment of `"0"` is preserved by stripping. -/
lemma zero_infix_strip (s : List Char) :
    "0".data <:+: pyStrip s ↔ "0".data <:+: s :=
  infix_pyStrip_iff '0' [] '0' [] s (by decide) (by decide) (by decide)

/-- Any string containing `"-1"` contains `"1"`. -/
lemma one_infix_of_negone {s : List Char} (h : "-1".data <:+: s) :
    "1".data <:+: s :=
  List.IsInfix.trans (by decide) h

/-- The final range guard always lands in `{-1, 0, 1}`. -/
lemma intGuard_mem (v : Int) :
    intGuard v = -1 ∨ intGuard v = 0 ∨ intGuard v = 1 := by
  unfold intGuard
  split
  · assumption
  · tauto

/-- Unfolding `predictAux` when the loop condition fails. -/
lemma predictAux_stop (cfg : Config) (comment : List Char)
    (oracle : Nat → Except ApiErr Response) (le : Option (List Char))
    (rc calls : Nat) (h : ¬ ((rc : Int) ≤ cfg.max_retries)) :
    predictAux cfg comment oracle le rc calls = (errorResult comment le, calls) := by
  unfold predictAux
  rw [dif_neg h]

/-- Unfolding `predictAux` on a successful call. -/
lemma predictAux_ok (cfg : Config) (comment : List Char)
    (oracle : Nat → Except ApiErr Response) (le : Option (List Char))
    (rc calls : Nat) (resp : Response)
    (h : (rc : Int) ≤ cfg.max_retries) (hor : oracle calls = .ok resp) :
    predictAux cfg comment oracle le rc calls =
      (successResult comment (parse_response resp).1
        (parse_response resp).2.1 (parse_response resp).2.2, calls + 1) := by
  unfold predictAux
  rw [dif_pos h, hor]

/-- Unfolding `predictAux` on a retryable (transient) exception. -/
lemma predictAux_retry (cfg : Config) (comment : List Char)
    (oracle : Nat → Except ApiErr Response) (le : Option (List Char))
    (rc calls : Nat) (e : ApiErr)
    (h : (rc : Int) ≤ cfg.max_retries) (hor : oracle calls = .error e)
    (hr : e.kind.retryable = true) :
    predictAux cfg comment oracle le rc calls =
      predictAux cfg comment oracle (some e.msg) (rc + 1) (calls + 1) := by
  conv_lhs => rw [predictAux]
  rw [dif_pos h, hor]
  dsimp only
  rw [if_pos hr]

/-- Unfolding `predictAux` on a fatal (unclassified) exception. -/
lemma predictAux_fatal (cfg : Config) (comment : List Char)
    (oracle : Nat → Except ApiErr Response) (le : Option (List Char))
    (rc calls : Nat) (e : ApiErr)
    (h : (rc : Int) ≤ cfg.max_retries) (hor : oracle calls = .error e)
    (hr : e.kind.retryable = false) :
    predictAux cfg comment oracle le rc calls =
      (errorResult comment (some e.msg), calls + 1) := by
  unfold predictAux
  rw [dif_pos h, hor]
  dsimp only
  rw [if_neg (by simp [hr])]

/-- Function `_parse_response` only produces labels in `{-1, 0, 1}`. -/
lemma parse_response_fst_mem (r : Response) :
    (parse_response r).1 = -1 ∨ (parse_response r).1 = 0 ∨
      (parse_response r).1 = 1 := by
  unfold parse_response
  cases r.content with
  | none => tauto
  | some text =>
    cases hp : r.promptTokens with
    | none => simp
    | some p =>
      cases hc : r.completionTokens with
      | none => simp
      | some c =>
        simp only
        exact intGuard_mem _

/-- Invariant of the retry loop: the returned dict echoes the comment
and carries a label in `{-1, 0, 1}`. -/
lemma predictAux_shape (cfg : Config) (comment : List Char)
    (oracle : Nat → Except ApiErr Response) (le : Option (List Char))
    (rc calls : Nat) :
    (predictAux cfg comment oracle le rc calls).1.comment = comment ∧
    ((predictAux cfg comment oracle le rc calls).1.sentiment = -1 ∨
     (predictAux cfg comment oracle le rc calls).1.sentiment = 0 ∨
     (predictAux cfg comment oracle le rc calls).1.sentiment = 1) := by
  induction le, rc, calls using predictAux.induct cfg comment oracle with
  | case1 le rc calls h resp hor =>
    rw [predictAux_ok cfg comment oracle le rc calls resp h hor]
    exact ⟨rfl, parse_response_fst_mem resp⟩
  | case2 le rc calls h e hor hr ih =>
    rw [predictAux_retry cfg comment oracle le rc calls e h hor hr]
    exact ih
  | case3 le rc calls h e hor hr =>
    rw [predictAux_fatal cfg comment oracle le rc calls e h hor
      (by simpa using hr)]
    exact ⟨rfl, by right; left; rfl⟩
  | case4 le rc calls h =>
    rw [predictAux_stop cfg comment oracle le rc calls h]
    exact ⟨rfl, by right; left; rfl⟩

/-! ### Claims -/

/-- C1: the response parser returns exactly one of {-1, 0, +1}, with
this priority: a string containing `"1"` but not `"-1"` yields +1; else
containing `"-1"` yields -1; else containing `"0"` yields 0; else the
trimmed string is parsed as an integer with 0 on parse failure, and a
final guard forces any value outside {-1, 0, 1} to 0.  In particular
`parse "-1 is the answer" = -1`, `parse "1 and -1" = -1`, and
`parse "garbage" = 0`. -/
theorem C1_response_parse (s : List Char) :
    (parseLabel s = -1 ∨ parseLabel s = 0 ∨ parseLabel s = 1)
    ∧ ("1".data <:+: s → ¬ ("-1".data <:+: s) → parseLabel s = 1)
    ∧ ("-1".data <:+: s → parseLabel s = -1)
    ∧ (¬ ("1".data <:+: s) → "0".data <:+: s → parseLabel s = 0)
    ∧ (¬ ("1".data <:+: s) → ¬ ("0".data <:+: s) →
        parseLabel s = intGuard ((pyParseInt (pyStrip s)).getD 0))
    ∧ parseLabel "-1 is the answer".data = -1
    ∧ parseLabel "1 and -1".data = -1
    ∧ parseLabel "garbage".data = 0 := by
  refine ⟨intGuard_mem _, ?_, ?_, ?_, ?_, by decide, by decide, by decide⟩
  · intro h1 h2
    unfold parseLabel rawLabel
    rw [if_pos ⟨(one_infix_strip s).mpr h1,
      fun hb => h2 ((negone_infix_strip s).mp hb)⟩]
    decide
  · intro hb
    have hbt := (negone_infix_strip s).mpr hb
    unfold parseLabel rawLabel
    rw [if_neg (fun hand => hand.2 hbt), if_pos hbt]
    decide
  · intro hn1 h0
    have hn1t : ¬ ("1".data <:+: pyStrip s) :=
      fun h => hn1 ((one_infix_strip s).mp h)
    have hnbt : ¬ ("-1".data <:+: pyStrip s) :=
      fun h => hn1t (one_infix_of_negone h)
    unfold parseLabel rawLabel
    rw [if_neg (fun hand => hn1t hand.1), if_neg hnbt,
      if_pos ((zero_infix_strip s).mpr h0)]
    decide
  · intro hn1 hn0
    have hn1t : ¬ ("1".data <:+: pyStrip s) :=
      fun h => hn1 ((one_infix_strip s).mp h)
    have hnbt : ¬ ("-1".data <:+: pyStrip s) :=
      fun h => hn1t (one_infix_of_negone h)
    have hn0t : ¬ ("0".data <:+: pyStrip s) :=
      fun h => hn0 ((zero_infix_strip s).mp h)
    unfold parseLabel rawLabel
    rw [if_neg (fun hand => hn1t hand.1), if_neg hnbt, if_neg hn0t]

/-- Witness for C1: the `"-1"` branch applied at the concrete input
`"x-1y"`. -/
theorem C1_response_parse_witness :
    ("-1".data <:+: "x-1y".data) ∧ parseLabel "x-1y".data = -1 :=
  ⟨by decide, (C1_response_parse "x-1y".data).2.2.1 (by decide)⟩

/-- C2: with `max_retries = 3` and a remote call raising a transient
(retryable) error on every attempt, `predict_sentiment` returns one
result with the error field set and label 0, after exactly 4 call
attempts (1 initial + 3 retries). -/
theorem C2_retry_exhaustion (cfg : Config) (comment : List Char)
    (oracle : Nat → Except ApiErr Response) (hmr : cfg.max_retries = 3)
    (htr : ∀ n, ∃ e, oracle n = .error e ∧ e.kind.retryable = true) :
    (predict_sentiment cfg comment oracle).1.sentiment = 0 ∧
    (predict_sentiment cfg comment oracle).1.error ≠ none ∧
    (predict_sentiment cfg comment oracle).2 = 4 := by
  obtain ⟨e0, h0, r0⟩ := htr 0
  obtain ⟨e1, h1, r1⟩ := htr 1
  obtain ⟨e2, h2, r2⟩ := htr 2
  obtain ⟨e3, h3, r3⟩ := htr 3
  have key : predict_sentiment cfg comment oracle =
      (errorResult comment (some e3.msg), 4) := by
    unfold predict_sentiment
    rw [predictAux_retry cfg comment oracle none 0 0 e0
          (by rw [hmr]; norm_num) h0 r0,
        predictAux_retry cfg comment oracle _ 1 1 e1
          (by rw [hmr]; norm_num) h1 r1,
        predictAux_retry cfg comment oracle _ 2 2 e2
          (by rw [hmr]; norm_num) h2 r2,
        predictAux_retry cfg comment oracle _ 3 3 e3
          (by rw [hmr]; norm_num) h3 r3,
        predictAux_stop cfg comment oracle _ 4 4 (by rw [hmr]; norm_num)]
  rw [key]
  exact ⟨rfl, by simp [errorResult], rfl⟩

/-- Witness for C2 at the default configuration and an
always-rate-limited remote call. -/
theorem C2_retry_exhaustion_witness :
    (predict_sentiment cfgDemo "great stay".data oracleRL).1.sentiment = 0 ∧
    (predict_sentiment cfgDemo "great stay".data oracleRL).1.error ≠ none ∧
    (predict_sentiment cfgDemo "great stay".data oracleRL).2 = 4 :=
  C2_retry_exhaustion cfgDemo "great stay".data oracleRL rfl
    (fun _ => ⟨⟨.rateLimit, "Rate limit exceeded".data⟩, rfl, rfl⟩)

/-- C3: for every comment and every behaviour of the remote call,
`predict_sentiment` returns a result value (echoing the comment, with a
label in `{-1, 0, 1}`) and never raises past its boundary; a
fatal/unclassified exception is not retried but immediately (after one
call) produces a result with label 0, zero token counts, and the error
field set to the stringified cause. -/
theorem C3_no_raise_and_fatal (cfg : Config) (comment : List Char)
    (oracle : Nat → Except ApiErr Response) :
    (predict_sentiment cfg comment oracle).1.comment = comment ∧
    ((predict_sentiment cfg comment oracle).1.sentiment = -1 ∨
     (predict_sentiment cfg comment oracle).1.sentiment = 0 ∨
     (predict_sentiment cfg comment oracle).1.sentiment = 1) ∧
    (∀ e, 0 ≤ cfg.max_retries → oracle 0 = .error e →
      e.kind.retryable = false →
      predict_sentiment cfg comment oracle =
        ({ comment := comment, sentiment := 0, score := 0,
           explanation := "Error: ".data ++ e.msg,
           input_tokens := 0, output_tokens := 0,
           error := some e.msg }, 1)) := by
  obtain ⟨hc, hs⟩ := predictAux_shape cfg comment oracle none 0 0
  refine ⟨hc, hs, ?_⟩
  intro e hmr hor hr
  unfold predict_sentiment
  rw [predictAux_fatal cfg comment oracle none 0 0 e
    (by exact_mod_cast hmr) hor hr]
  rfl

/-- Witness for C3: a fatal exception at the first call of the default
configuration. -/
theorem C3_no_raise_and_fatal_witness :
    predict_sentiment cfgDemo "nice".data oracleFatal =
      ({ comment := "nice".data, sentiment := 0, score := 0,
         explanation := "Error: boom".data, input_tokens := 0,
         output_tokens := 0, error := some "boom".data }, 1) := by
  have h := (C3_no_raise_and_fatal cfgDemo "nice".data oracleFatal).2.2
    ⟨.other, "boom".data⟩ (by decide) rfl rfl
  rw [h]
  decide

/-- Function `_parse_response` returns `(0, 0, 0)` whenever reading the content
or the usage metadata raises. -/
lemma parse_response_bad (r : Response)
    (hbad : r.content = none ∨ r.promptTokens = none ∨
      r.completionTokens = none) :
    parse_response r = (0, 0, 0) := by
  unfold parse_response
  rcases hr : r.content with _ | text
  · rfl
  · rcases hp : r.promptTokens with _ | p
    · simp
    · rcases hcc : r.completionTokens with _ | c
      · simp
      · rcases hbad with h | h | h <;> simp_all

/-- C9: if the remote call succeeds but extracting the label or token
counts from the response raises, `predict_sentiment` returns a
success-shaped result with sentiment 0, zero token counts, and
`error = None` — indistinguishable from a genuine neutral
classification, so the usage recorder's error guard does not fire. -/
theorem C9_parse_failure_is_success (cfg : Config) (comment : List Char)
    (oracle : Nat → Except ApiErr Response) (r : Response)
    (hmr : 0 ≤ cfg.max_retries) (hor : oracle 0 = .ok r)
    (hbad : r.content = none ∨ r.promptTokens = none ∨
      r.completionTokens = none) :
    predict_sentiment cfg comment oracle =
      ({ comment := comment, sentiment := 0, score := 0,
         explanation := "Classified as Neutral".data,
         input_tokens := 0, output_tokens := 0, error := none }, 1) ∧
    pyTruthy (predict_sentiment cfg comment oracle).1.error = false := by
  have key : predict_sentiment cfg comment oracle =
      (successResult comment 0 0 0, 1) := by
    unfold predict_sentiment
    rw [predictAux_ok cfg comment oracle none 0 0 r
      (by exact_mod_cast hmr) hor, parse_response_bad r hbad]
  constructor
  · rw [key]
    rfl
  · rw [key]
    rfl

/-- Witness for C9: a successful call whose response carries no usage
metadata. -/
theorem C9_parse_failure_is_success_witness :
    predict_sentiment cfgDemo "lovely".data oracleNoUsage =
      ({ comment := "lovely".data, sentiment := 0, score := 0,
         explanation := "Classified as Neutral".data,
         input_tokens := 0, output_tokens := 0, error := none }, 1) :=
  (C9_parse_failure_is_success cfgDemo "lovely".data oracleNoUsage
    ⟨some "1".data, none, none⟩ (by decide) rfl
    (Or.inr (Or.inl rfl))).1

/-- C10: construction validates only the credential and the
temperature, so `max_retries < 0` is accepted; with such a
configuration `predict_sentiment` performs zero remote calls and
returns label 0, zero token counts, and error equal to the string
`"None"` (the stringification of the absent last error). -/
theorem C10_negative_max_retries (key model : List Char) (temp : ℚ)
    (mt bs : Nat) (rld : ℚ) (mr : Int) (bf : ℚ) (comment : List Char)
    (oracle : Nat → Except ApiErr Response)
    (hk : pyStrip key ≠ []) (h0 : 0 ≤ temp) (h2 : temp ≤ 2)
    (hmr : mr < 0) :
    mkConfig key model temp mt bs rld mr bf =
      .ok ⟨key, model, temp, mt, bs, rld, mr, bf⟩ ∧
    predict_sentiment ⟨key, model, temp, mt, bs, rld, mr, bf⟩
        comment oracle =
      ({ comment := comment, sentiment := 0, score := 0,
         explanation := "Error: None".data, input_tokens := 0,
         output_tokens := 0, error := some "None".data }, 0) := by
  constructor
  · unfold mkConfig
    rw [if_neg hk, if_neg (not_not_intro ⟨h0, h2⟩)]
  · unfold predict_sentiment
    rw [predictAux_stop _ comment oracle none 0 0
      (by show ¬ ((0 : Nat) : Int) ≤ mr; omega)]
    rfl

/-- C4: for every retry attempt number n ≥ 1 the backoff delay is
`base_delay * backoff_factor ^ (n - 1)`; with `base_delay = 0.5` and
`backoff_factor = 2.0` the delays for attempts 1, 2, 3 are 0.5, 1.0,
2.0, with no jitter (the delay is exactly the formula) and no upper cap
(the delays exceed every bound). -/
theorem C4_backoff_formula (cfg : Config) (n : Nat) (_hn : 1 ≤ n) :
    calculate_backoff cfg n =
      cfg.rate_limit_delay * cfg.backoff_factor ^ (n - 1) ∧
    (cfg.rate_limit_delay = 1/2 → cfg.backoff_factor = 2 →
      (calculate_backoff cfg 1 = 1/2 ∧ calculate_backoff cfg 2 = 1 ∧
       calculate_backoff cfg 3 = 2 ∧
       ∀ B : ℚ, ∃ m : Nat, 1 ≤ m ∧ B < calculate_backoff cfg m)) := by
  refine ⟨rfl, ?_⟩
  intro hd hf
  refine ⟨?_, ?_, ?_, ?_⟩
  · unfold calculate_backoff; rw [hd, hf]; norm_num
  · unfold calculate_backoff; rw [hd, hf]; norm_num
  · unfold calculate_backoff; rw [hd, hf]; norm_num
  · intro B
    obtain ⟨k, hk⟩ :=
      pow_unbounded_of_one_lt (2 * B) (by norm_num : (1 : ℚ) < 2)
    refine ⟨k + 1, by omega, ?_⟩
    unfold calculate_backoff
    rw [hd, hf]
    simp only [Nat.add_sub_cancel]
    linarith

/-- Witness for C4 at the default configuration. -/
theorem C4_backoff_formula_witness :
    calculate_backoff cfgDemo 1 = 1/2 ∧ calculate_backoff cfgDemo 2 = 1 ∧
    calculate_backoff cfgDemo 3 = 2 :=
  let h := (C4_backoff_formula cfgDemo 1 (by norm_num)).2 rfl rfl
  ⟨h.1, h.2.1, h.2.2.1⟩

/-- Counterexample for C5 as stated: a result whose error field is set
(to the empty string, Python-falsy) is not skipped by
`update_cost_tracking` — the totals change. -/
theorem C5_usage_recorder_counterexample :
    ((⟨"c".data, 0, 0, "e".data, 5, 7, some []⟩ : SentimentResult).error
      ≠ none) ∧
    update_cost_tracking "gpt-4".data ⟨0, 0, 0⟩
        ⟨"c".data, 0, 0, "e".data, 5, 7, some []⟩ ≠
      (⟨0, 0, 0⟩ : UsageTotals) := by
  constructor
  · simp
  · intro h
    have h5 := congrArg UsageTotals.input h
    simp [update_cost_tracking, pyTruthy] at h5

/-- C5 (amended): the usage recorder is a no-op exactly when the
result's error field is Python-truthy (a non-empty string); with a
falsy error (`None` or the empty string) it adds
`input_tokens/1000 * input_price + output_tokens/1000 * output_price`
to the cost and the token counts to the totals, looking up the
per-model price table with unknown models falling back to the
gpt-3.5-turbo tier. -/
theorem C5_usage_recorder (model : List Char) (totals : UsageTotals)
    (r : SentimentResult) :
    (pyTruthy r.error = true → update_cost_tracking model totals r = totals) ∧
    (pyTruthy r.error = false →
      update_cost_tracking model totals r =
        ⟨totals.cost
           + (r.input_tokens : ℚ) / 1000 * (pricingFor model).1
           + (r.output_tokens : ℚ) / 1000 * (pricingFor model).2,
         totals.input + r.input_tokens,
         totals.output + r.output_tokens⟩) ∧
    (r.error = none → pyTruthy r.error = false) ∧
    (model ≠ "gpt-4".data → model ≠ "gpt-3.5-turbo".data →
      pricingFor model = pricingFor "gpt-3.5-turbo".data) := by
  refine ⟨?_, ?_, ?_, ?_⟩
  · intro h
    unfold update_cost_tracking
    rw [if_pos h]
  · intro h
    unfold update_cost_tracking
    rw [if_neg (by simp [h])]
  · intro h
    rw [h]
    rfl
  · intro h1 h2
    unfold pricingFor
    rw [if_neg h1, if_neg h2, if_neg (by decide), if_pos rfl]

/-- Witness for C5: an error result (truthy error string) leaves the
totals unchanged. -/
theorem C5_usage_recorder_witness :
    update_cost_tracking "gpt-4".data ⟨1, 2, 3⟩
      ⟨"c".data, 1, 1, "e".data, 5, 7, some "x".data⟩ = ⟨1, 2, 3⟩ :=
  (C5_usage_recorder "gpt-4".data ⟨1, 2, 3⟩
    ⟨"c".data, 1, 1, "e".data, 5, 7, some "x".data⟩).1 (by decide)

/-- The batch loop is a map over the retained comments. -/
lemma batchLoop_eq_map (f : List Char → SentimentResult)
    (l : List (List Char)) : batchLoop f l = l.map f := by
  induction l with
  | nil => rfl
  | cons c cs ih => simp [batchLoop, ih]

/-- The truncation step always equals `take 20`. -/
lemma cappedComments_eq_take (comments : List (List Char)) :
    cappedComments comments = comments.take batchCap := by
  unfold cappedComments
  by_cases h : comments.length > batchCap
  · rw [if_pos h]
  · rw [if_neg h, List.take_of_length_le (by omega)]

/-- C6: the batch run truncates the input to the cap of 20, produces
exactly one result per retained comment in the original input order,
and reports the number dropped; 25 comments yield 20 results with 5
dropped. -/
theorem C6_batch_cap (predict : List Char → SentimentResult)
    (comments : List (List Char)) :
    (handle_csv_batch predict comments).1.length =
      min comments.length 20 ∧
    (∀ i, i < min comments.length 20 →
      ((handle_csv_batch predict comments).1)[i]? =
        (comments[i]?).map predict) ∧
    (handle_csv_batch predict comments).2 =
      comments.length - min comments.length 20 ∧
    (comments.length = 25 →
      (handle_csv_batch predict comments).1.length = 20 ∧
      (handle_csv_batch predict comments).2 = 5) := by
  have hres : (handle_csv_batch predict comments).1 =
      (comments.take batchCap).map predict := by
    unfold handle_csv_batch
    rw [cappedComments_eq_take, batchLoop_eq_map]
  have hlen : (handle_csv_batch predict comments).1.length =
      min comments.length 20 := by
    rw [hres]
    simp [batchCap, Nat.min_comm]
  have hdrop : (handle_csv_batch predict comments).2 =
      comments.length - min comments.length 20 := by
    unfold handle_csv_batch
    rw [cappedComments_eq_take]
    simp [batchCap, Nat.min_comm]
  refine ⟨hlen, ?_, hdrop, ?_⟩
  · intro i hi
    rw [hres, List.getElem?_map, List.getElem?_take_of_lt
      (by simp [batchCap]; omega)]
  · intro h25
    rw [hlen, hdrop, h25]
    norm_num

/-- Witness for C6: 25 identical comments yield 20 results and 5
dropped. -/
theorem C6_batch_cap_witness :
    (handle_csv_batch constNeutral (List.replicate 25 "ok".data)).1.length
      = 20 ∧
    (handle_csv_batch constNeutral (List.replicate 25 "ok".data)).2 = 5 :=
  (C6_batch_cap constNeutral (List.replicate 25 "ok".data)).2.2.2
    (by simp)

/-- C7: configuration construction fails for an empty or blank API
credential, fails for a temperature outside [0.0, 2.0], and succeeds
with the exact given values (never clamped) for a non-blank credential
and in-range temperature. -/
theorem C7_config_validation (key model : List Char) (temp : ℚ)
    (mt bs : Nat) (rld : ℚ) (mr : Int) (bf : ℚ) :
    (pyStrip key = [] →
      ∃ m, mkConfig key model temp mt bs rld mr bf = .error m) ∧
    (temp < 0 ∨ 2 < temp →
      ∃ m, mkConfig key model temp mt bs rld mr bf = .error m) ∧
    (pyStrip key ≠ [] → 0 ≤ temp → temp ≤ 2 →
      mkConfig key model temp mt bs rld mr bf =
        .ok ⟨key, model, temp, mt, bs, rld, mr, bf⟩) := by
  refine ⟨?_, ?_, ?_⟩
  · intro h
    exact ⟨_, by unfold mkConfig; rw [if_pos h]⟩
  · intro h
    by_cases hk : pyStrip key = []
    · exact ⟨_, by unfold mkConfig; rw [if_pos hk]⟩
    · refine ⟨"Temperature must be between 0.0 and 2.0".data, ?_⟩
      unfold mkConfig
      rw [if_neg hk, if_pos (show ¬ (0 ≤ temp ∧ temp ≤ 2) by
        rintro ⟨ha, hb⟩
        rcases h with h | h <;> linarith)]
  · intro hk h0 h2
    unfold mkConfig
    rw [if_neg hk, if_neg (not_not_intro ⟨h0, h2⟩)]

/-- Witness for C7: a valid construction at temperature 1. -/
theorem C7_config_validation_witness :
    mkConfig "sk-demo-key".data "gpt-4".data 1 10 100 (1/2) 3 2 =
      .ok ⟨"sk-demo-key".data, "gpt-4".data, 1, 10, 100, 1/2, 3, 2⟩ :=
  (C7_config_validation "sk-demo-key".data "gpt-4".data 1 10 100 (1/2)
    3 2).2.2 (by decide) (by norm_num) (by norm_num)

/-- C8: the prompt builder returns exactly two role-tagged turns, a
system turn followed by a user turn, with the comment verbatim (as a
contiguous substring) in the user turn; determinism is inherent in the
embedding (`build_prompt` is a function of the fixed few-shot set and
the comment). -/
theorem C8_prompt_builder (examples : List (List Char × Int))
    (comment : List Char) :
    ∃ u, build_prompt examples comment =
        [⟨"system".data, get_system_message⟩, ⟨"user".data, u⟩] ∧
      comment <:+: u :=
  ⟨_, rfl,
    ⟨get_few_shot_examples examples
       ++ "Now analyze this comment:\n\nComment: ".data,
     "\n\nSentiment:".data, rfl⟩⟩

/-- Witness for C10 at `max_retries = -1`. -/
theorem C10_negative_max_retries_witness :
    mkConfig "sk-demo-key".data "gpt-4".data 0 10 100 (1/2) (-1) 2 =
      .ok ⟨"sk-demo-key".data, "gpt-4".data, 0, 10, 100, 1/2, -1, 2⟩ ∧
    predict_sentiment
      (⟨"sk-demo-key".data, "gpt-4".data, 0, 10, 100, 1/2, -1, 2⟩ : Config)
      "hello".data oracleRL =
      ({ comment := "hello".data, sentiment := 0, score := 0,
         explanation := "Error: None".data, input_tokens := 0,
         output_tokens := 0, error := some "None".data }, 0) :=
  C10_negative_max_retries "sk-demo-key".data "gpt-4".data 0 10 100 (1/2)
    (-1) 2 "hello".data oracleRL (by decide) (by norm_num) (by norm_num)
    (by norm_num)

end Kiro
